import Mathlib

/-!
Verification development for the `html-keynbutton-response` jsPsych plugin
(`src/index.ts`). The plugin renders an HTML stimulus, optionally a group of
clickable buttons (one per entry of `choices`), arms a keyboard listener and up
to three one-shot timers, records the first qualifying response together with a
reaction time, and hands exactly one trial-data record to the host framework.

The embedding below is an operational model of the single-threaded,
event-driven trial: the `trial` entry point builds the initial `TrialState`
(mirroring the rendering code, including the configuration-error throw for the
grid layout), and `step` processes the asynchronous callbacks (keyboard press,
button click, the three timer fires) exactly as the source handlers
`after_response` / `end_trial` and the `setTimeout` closures do.

Host framework behaviour that the plugin relies on (the `jsPsych` object) is
modelled from the spec's external-interface contract and is marked as such in
doc comments; everything else is translated directly from `src/index.ts`.

Timing: `performance.now()` readings are modelled as rationals (ℚ, in
milliseconds, measured from stimulus onset, i.e. `start_time = 0`), so that
`Math.round(end_time - start_time)` becomes `round t : ℤ`.
-/

namespace KeyNButton

/-- The `choices` trial parameter (`ParameterType.KEYS`): either the sentinel
strings `"ALL_KEYS"` / `"NO_KEYS"`, the JavaScript value `null`, or an ordered
array of key/label strings.  The rendering code at line 135 distinguishes all
four cases (`trial.choices !== null && trial.choices !== "ALL_KEYS" &&
trial.choices !== "NO_KEYS"`). -/
inductive Choices where
  | allKeys : Choices
  | noKeys : Choices
  | nullChoices : Choices
  | keyList (keys : List String) : Choices
deriving DecidableEq

/-- The trial parameters of the plugin (the `info.parameters` block).  The
`button_html` builder parameter is not a field: the model renders the default
builder `(choice, i) ↦ <button class="jspsych-btn">choice</button>`; see
`button_html` below. -/
structure TrialParams where
  stimulus : String
  choices : Choices
  show_button : Bool
  button_layout : String
  grid_rows : Option Int
  grid_columns : Option Int
  enable_button_after : Int
  prompt : Option String
  stimulus_duration : Option Int
  trial_duration : Option Int
  response_ends_trial : Bool
deriving DecidableEq

/-- A rendered button element inside the button-group container, as produced
by the rendering loop at lines 160-167: the element inserted by `button_html`,
tagged with `dataset.choice = index` and carrying a click listener that calls
`after_response({key: choice, rt: null})`.  `disabled` models the DOM
`disabled` attribute (a disabled `<button>` fires no click events). -/
structure ButtonEl where
  tag : String
  classes : List String
  choice : String
  choiceIndex : Nat
  disabled : Bool
deriving DecidableEq

/-- The closure-held `response` record (`var response = { rt: null, key: null }`,
line 192). -/
structure ResponseRecord where
  rt : Option Int
  key : Option String
deriving DecidableEq

/-- The `trial_data` object assembled by `end_trial` (lines 204-209) and handed
to `jsPsych.finishTrial`. -/
structure TrialData where
  rt : Option Int
  stimulus : String
  response : Option String
deriving DecidableEq

/-- The mutable state of one running trial: the closure variables of the
`trial` method plus the observable DOM/host state the handlers touch.
`results` is the host's completion sink (the list of trial-data records the
host has accepted); `finished` records whether `finishTrial` has run. -/
structure TrialState where
  respondedClass : Bool
  buttonGroup : Option (List ButtonEl)
  response : ResponseRecord
  keyboardArmed : Bool
  stimTimerArmed : Bool
  trialTimerArmed : Bool
  enableTimerArmed : Bool
  stimulusVisible : Bool
  results : List TrialData
  finished : Bool
deriving DecidableEq

/-- The default `button_html` parameter (lines 36-38): it returns
`<button class="jspsych-btn">choice</button>`, so the rendered element is a
bare `<button>` with the single class `jspsych-btn` and no wrapper element. -/
def button_html (choice : String) (choice_index : Nat) : ButtonEl :=
  { tag := "button"
    classes := ["jspsych-btn"]
    choice := choice
    choiceIndex := choice_index
    disabled := false }

/-- The guard of the button-rendering block (line 135):
`trial.show_button && trial.choices !== null && trial.choices !== "ALL_KEYS" &&
trial.choices !== "NO_KEYS"` — i.e. buttons render exactly when `show_button`
is set and `choices` is an actual array. -/
def renderButtons (p : TrialParams) : Bool :=
  p.show_button &&
    (match p.choices with
     | Choices.keyList _ => true
     | _ => false)

/-- The array underlying `choices` when it is one. -/
def choiceStrings : Choices → List String
  | Choices.keyList ks => ks
  | _ => []

/-- CSS classes of the button-group container: `jspsych-btn-group-grid` for the
grid layout, `jspsych-btn-group-flex` for flex, nothing otherwise
(lines 139-158).  Its DOM id is `jspsych-html-button-response-btngroup`; ids
are not classes and are not modelled here. -/
def groupClasses (p : TrialParams) : List String :=
  if p.button_layout == "grid" then ["jspsych-btn-group-grid"]
  else if p.button_layout == "flex" then ["jspsych-btn-group-flex"]
  else []

/-- Whether `document.querySelectorAll(".jspsych-html-button-response-button
button")` (lines 172 and 177) matches a given rendered button: the selector
requires a `button`-tag element that has an ancestor carrying the class
`jspsych-html-button-response-button`.  The ancestors of a rendered button are
the button-group container (classes = `groupClasses`), the display element and
the document body, none of which ever carries that class in this plugin. -/
def staleSelectorHit (p : TrialParams) (b : ButtonEl) : Bool :=
  b.tag == "button" && decide ("jspsych-html-button-response-button" ∈ groupClasses p)

/-- The `enable_button_after > 0` start-up block (lines 171-175): set the
`disabled` attribute on every element matched by the stale selector. -/
def disableStale (p : TrialParams) (bs : List ButtonEl) : List ButtonEl :=
  bs.map fun b => if staleSelectorHit p b then { b with disabled := true } else b

/-- The body of the `enable_button_after` timeout (lines 176-181): remove the
`disabled` attribute from every element matched by the stale selector. -/
def enableStale (p : TrialParams) (bs : List ButtonEl) : List ButtonEl :=
  bs.map fun b => if staleSelectorHit p b then { b with disabled := false } else b

/-- The configuration-error condition of the grid layout (lines 139-145): the
`throw new Error(...)` fires exactly when the button block renders, the layout
is `"grid"`, and both `grid_rows` and `grid_columns` are `null`. -/
def gridConfigBad (p : TrialParams) : Bool :=
  renderButtons p && p.button_layout == "grid"
    && p.grid_rows.isNone && p.grid_columns.isNone

/-- The state produced by the `trial` method when it does not throw: stimulus
appended and visible, buttons rendered (in `choices` order, via the default
`button_html`) iff `renderButtons`, the stale `enable_button_after` disabling
applied, keyboard listener armed iff `choices != "NO_KEYS"` (line 244, loose
inequality: the `null` and `"ALL_KEYS"` cases arm it too), and one pending
one-shot timer per non-null duration parameter (plus the button-enable
timer). -/
def buildState (p : TrialParams) : TrialState :=
  let group : Option (List ButtonEl) :=
    if renderButtons p then
      some (((choiceStrings p.choices).enum).map fun ic => button_html ic.2 ic.1)
    else none
  let group := if p.enable_button_after > 0 then group.map (disableStale p) else group
  { respondedClass := false
    buttonGroup := group
    response := { rt := none, key := none }
    keyboardArmed := if p.choices = Choices.noKeys then false else true
    stimTimerArmed := p.stimulus_duration.isSome
    trialTimerArmed := p.trial_duration.isSome
    enableTimerArmed := p.enable_button_after > 0
    stimulusVisible := true
    results := []
    finished := false }

/-- The `trial(display_element, trial)` entry point (lines 125-267): either the
synchronous grid-configuration throw, or the fully armed initial state.  On the
error path nothing is armed and no button is built — the throw at line 142
precedes the button loop, the listeners and every timer. -/
def trial (p : TrialParams) : Except String TrialState :=
  if gridConfigBad p then
    Except.error "You cannot set `grid_rows` to `null` without providing a value for `grid_columns`."
  else
    Except.ok (buildState p)

/-- Modelled from the spec: the host completion sink (`jsPsych.finishTrial`,
spec section 6 "Completion sink: accept(TrialResult) — ends the trial from the
host's perspective").  The host appends the record to its results, ends the
trial, clears every timeout scheduled through `jsPsych.pluginAPI.setTimeout`,
and tears down the trial's display content (spec sections 4.4 and 5: no
further timers, listeners, or DOM mutations occur after finalize). -/
def finishTrial (s : TrialState) (d : TrialData) : TrialState :=
  { s with results := s.results ++ [d]
           finished := true
           stimTimerArmed := false
           trialTimerArmed := false
           enableTimerArmed := false
           buttonGroup := none }

/-- The `end_trial` closure (lines 198-213): cancel the keyboard listener if
one was armed, assemble `trial_data` from the response record and the stimulus
parameter, and call `jsPsych.finishTrial`. -/
def end_trial (p : TrialParams) (s : TrialState) : TrialState :=
  let s1 := { s with keyboardArmed := false }
  finishTrial s1
    { rt := s1.response.rt
      stimulus := p.stimulus
      response := s1.response.key }

/-- The `after_response` closure (lines 216-241), invoked with the payload
`info` by the keyboard listener or a button-click listener at time `t` (ms
since onset): add the `responded` class, keep the first recorded key
(`if (response.key == null) response = info`), unconditionally recompute
`response.rt = Math.round(end_time - start_time)` (line 228, outside the
guard), disable every child of the button group, and call `end_trial` iff
`response_ends_trial`. -/
def after_response (p : TrialParams) (s : TrialState) (info : ResponseRecord)
    (t : ℚ) : TrialState :=
  let r0 := if s.response.key = none then info else s.response
  let r1 : ResponseRecord := { rt := some (round t), key := r0.key }
  let group1 :=
    if p.show_button then
      s.buttonGroup.map (fun bs => bs.map fun b => { b with disabled := true })
    else s.buttonGroup
  let s2 := { s with respondedClass := true, response := r1, buttonGroup := group1 }
  if p.response_ends_trial then end_trial p s2 else s2

/-- Whether a pressed key qualifies under `valid_responses = trial.choices`
(the host keyboard service accepts every key under `"ALL_KEYS"` and only the
listed keys for an array; `"NO_KEYS"` and `null` accept nothing — the
`"NO_KEYS"` case never arises because no listener is armed then). -/
def keyQualifies : Choices → String → Bool
  | Choices.allKeys, _ => true
  | Choices.keyList ks, k => decide (k ∈ ks)
  | Choices.noKeys, _ => false
  | Choices.nullChoices, _ => false

/-- The asynchronous callbacks the host scheduler can deliver to a running
trial: a keyboard press of key `k` at time `t` (ms since onset), a click on
the button at position `i` at time `t`, and the three one-shot timer
expirations. -/
inductive Event where
  | keyPress (k : String) (t : ℚ) : Event
  | buttonClick (i : Nat) (t : ℚ) : Event
  | trialTimerFire : Event
  | stimTimerFire : Event
  | enableTimerFire : Event
deriving DecidableEq

/-- One delivery of an asynchronous callback.  A key press reaches
`after_response` only while the listener is armed and the key qualifies; the
listener was registered with `persist: false`, so the host deregisters it on
its first delivery.  A click reaches `after_response` only while the button
exists and is not disabled (a disabled `<button>` fires no click event), with
payload `{key: choice, rt: null}`.  Each timer fires at most once (one-shot
`setTimeout`) and only while still pending — `finishTrial` cleared them
otherwise. -/
def step (p : TrialParams) (s : TrialState) : Event → TrialState
  | Event.keyPress k t =>
      if s.keyboardArmed && keyQualifies p.choices k then
        after_response p { s with keyboardArmed := false }
          { rt := some (round t), key := some k } t
      else s
  | Event.buttonClick i t =>
      match s.buttonGroup with
      | none => s
      | some bs =>
        match bs[i]? with
        | none => s
        | some b =>
          if b.disabled then s
          else after_response p s { rt := none, key := some b.choice } t
  | Event.trialTimerFire =>
      if s.trialTimerArmed then end_trial p { s with trialTimerArmed := false } else s
  | Event.stimTimerFire =>
      if s.stimTimerArmed then
        { s with stimTimerArmed := false, stimulusVisible := false }
      else s
  | Event.enableTimerFire =>
      if s.enableTimerArmed then
        { s with enableTimerArmed := false
                 buttonGroup := s.buttonGroup.map (enableStale p) }
      else s

/-- Run a whole sequence of deliveries. -/
def steps (p : TrialParams) (s : TrialState) : List Event → TrialState
  | [] => s
  | e :: es => steps p (step p s e) es

/-- The response identifier an event would be accepted with in a given state
(`none` when the event does not reach `after_response`). -/
def accepted (p : TrialParams) (s : TrialState) : Event → Option String
  | Event.keyPress k _ =>
      if s.keyboardArmed && keyQualifies p.choices k then some k else none
  | Event.buttonClick i _ =>
      match s.buttonGroup with
      | none => none
      | some bs =>
        match bs[i]? with
        | none => none
        | some b => if b.disabled then none else some b.choice
  | Event.trialTimerFire => none
  | Event.stimTimerFire => none
  | Event.enableTimerFire => none

/-- The identifier of the first event of a trace that is accepted by
`after_response`, tracking the evolving state. -/
def firstAccepted (p : TrialParams) (s : TrialState) : List Event → Option String
  | [] => none
  | e :: es =>
    match accepted p s e with
    | some k => some k
    | none => firstAccepted p (step p s e) es

/-- Synthesized simulation data, the result of `create_simulation_data`
(lines 284-296).  Modelled from the spec: the reaction time is drawn from the
host's ex-Gaussian sampler, the response from the host's valid-key sampler,
then the record is merged with `simulation_options` and reconciled by the
host's `ensureSimulationDataConsistency`; the reconciled record is taken here
as an input. -/
structure SimData where
  stimulus : String
  rt : Option ℚ
  response : Option String
deriving DecidableEq

/-- The observable actions the `simulate` entry point performs, in order:
synthesize data, hand data straight to `jsPsych.finishTrial`, run the real
`trial` pipeline on the host's display element, invoke the `load_callback`,
and inject a key press via `jsPsych.pluginAPI.pressKey(key, rt)`. -/
inductive SimAction where
  | createData (d : SimData) : SimAction
  | finishTrialData (d : SimData) : SimAction
  | runTrial : SimAction
  | load_callback : SimAction
  | pressKey (k : Option String) (t : ℚ) : SimAction
deriving DecidableEq

/-- The `simulate_data_only` method (lines 298-302): create the data, hand it
to `finishTrial` without rendering anything. -/
def simulate_data_only (d : SimData) : List SimAction :=
  [SimAction.createData d, SimAction.finishTrialData d]

/-- The `simulate_visual` method (lines 304-315): create the data, run the
real `trial` method on `jsPsych.getDisplayElement()`, call `load_callback`,
and, only when the synthesized `rt` is non-null, inject the synthesized
response key at time `rt`. -/
def simulate_visual (d : SimData) : List SimAction :=
  SimAction.createData d :: SimAction.runTrial :: SimAction.load_callback ::
    (match d.rt with
     | some t => [SimAction.pressKey d.response t]
     | none => [])

/-- The `simulate` dispatcher (lines 269-282): two independent string
comparisons on `simulation_mode`; `"data-only"` first calls `load_callback`
and then `simulate_data_only`, `"visual"` calls `simulate_visual`. -/
def simulate (mode : String) (d : SimData) : List SimAction :=
  (if mode == "data-only" then SimAction.load_callback :: simulate_data_only d else []) ++
    (if mode == "visual" then simulate_visual d else [])

/-- Whether an action is a key injection (`pluginAPI.pressKey`). -/
def isPressKey : SimAction → Bool
  | SimAction.pressKey _ _ => true
  | _ => false

/-- Default parameter values of the plugin's `info.parameters` block, used as
a base point for concrete witnesses. -/
def pDefault : TrialParams :=
  { stimulus := "<p>stim</p>"
    choices := Choices.allKeys
    show_button := true
    button_layout := "grid"
    grid_rows := some 1
    grid_columns := none
    enable_button_after := 0
    prompt := none
    stimulus_duration := none
    trial_duration := none
    response_ends_trial := true }

/-- Concrete parameters exercising `enable_button_after`: two buttons
("f", "j") and a 100 ms enable delay. -/
def pEnableAfter : TrialParams :=
  { pDefault with choices := Choices.keyList ["f", "j"], enable_button_after := 100 }

/-- A concrete mid-trial state in which the key "f" was already recorded at
rt 120 while the keyboard listener is still armed (the situation after a
button click with `response_ends_trial = false` would leave behind). -/
def sAnswered : TrialState :=
  { respondedClass := true
    buttonGroup := none
    response := { rt := some 120, key := some "f" }
    keyboardArmed := true
    stimTimerArmed := false
    trialTimerArmed := false
    enableTimerArmed := false
    stimulusVisible := true
    results := []
    finished := false }

/-- The exactly-once invariant of the completion sink: before `finishTrial`
runs, the host has accepted nothing; once it has run, the host holds exactly
one record and every input source is disarmed (keyboard listener cancelled by
`end_trial`, timers cleared and display torn down by the host). -/
def OnceInv (s : TrialState) : Prop :=
  (s.finished = false ∧ s.results = []) ∨
    (s.finished = true ∧ s.results.length = 1 ∧ s.keyboardArmed = false ∧
      s.buttonGroup = none ∧ s.trialTimerArmed = false ∧ s.stimTimerArmed = false ∧
      s.enableTimerArmed = false)

/-- C6: if `button_layout` is `"grid"`, buttons are being rendered
(`show_button` and an actual choices array) and both `grid_rows` and
`grid_columns` are null, the `trial` entry point raises the configuration
error synchronously; the `Except.error` return models the throw at line 142,
which precedes the button-construction loop, the keyboard listener and every
timer, so nothing of the trial is armed. -/
theorem trial_grid_config_error (p : TrialParams)
    (h1 : p.show_button = true) (ks : List String) (h2 : p.choices = Choices.keyList ks)
    (h3 : p.button_layout = "grid") (h4 : p.grid_rows = none) (h5 : p.grid_columns = none) :
    trial p = Except.error
      "You cannot set `grid_rows` to `null` without providing a value for `grid_columns`." := by
  have hb : gridConfigBad p = true := by
    simp [gridConfigBad, renderButtons, h1, h2, h3, h4, h5]
  simp [trial, hb]

/-- Witness for C6 at a concrete parameter record. -/
theorem trial_grid_config_error_witness :
    trial { pDefault with choices := Choices.keyList ["f", "j"], grid_rows := none }
      = Except.error
        "You cannot set `grid_rows` to `null` without providing a value for `grid_columns`." :=
  trial_grid_config_error
    { pDefault with choices := Choices.keyList ["f", "j"], grid_rows := none }
    rfl ["f", "j"] rfl rfl rfl rfl

/-- C10: the grid configuration check is guarded by the button-rendering
condition of line 135, so when `show_button` is false or `choices` is
`"ALL_KEYS"`, `"NO_KEYS"` or `null`, rendering succeeds with no error even
though `button_layout = "grid"` and both grid dimensions are null. -/
theorem trial_no_buttons_skips_grid_check (p : TrialParams)
    (h : p.show_button = false ∨ p.choices = Choices.allKeys ∨
      p.choices = Choices.noKeys ∨ p.choices = Choices.nullChoices)
    (h3 : p.button_layout = "grid") (h4 : p.grid_rows = none) (h5 : p.grid_columns = none) :
    trial p = Except.ok (buildState p) := by
  have hb : renderButtons p = false := by
    rcases h with h | h | h | h <;> simp [renderButtons, h]
  simp [trial, gridConfigBad, hb]

/-- Witness for C10: `"ALL_KEYS"` choices with an unconfigurable grid still
render fine. -/
theorem trial_no_buttons_skips_grid_check_witness :
    trial { pDefault with grid_rows := none }
      = Except.ok (buildState { pDefault with grid_rows := none }) :=
  trial_no_buttons_skips_grid_check { pDefault with grid_rows := none }
    (Or.inr (Or.inl rfl)) rfl rfl rfl

/-- C2 (refuting evaluation): with `enable_button_after = 100 > 0` and two
rendered buttons, the buttons do NOT start disabled — the disabling loop at
lines 172-175 queries the stale selector
`.jspsych-html-button-response-button button`, which matches none of the
rendered `.jspsych-btn` buttons — and the re-enable timer changes nothing
when it fires. -/
theorem enable_button_after_is_dead_code :
    (buildState pEnableAfter).enableTimerArmed = true ∧
    (buildState pEnableAfter).buttonGroup = some [button_html "f" 0, button_html "j" 1] ∧
    (button_html "f" 0).disabled = false ∧
    (step pEnableAfter (buildState pEnableAfter) Event.enableTimerFire).buttonGroup
      = some [button_html "f" 0, button_html "j" 1] := by
  refine ⟨rfl, by decide, rfl, by decide⟩

/-- C7: with a non-null `trial_duration` the trial-end timer is armed by the
`trial` entry point, and on firing it invokes `end_trial` unconditionally —
from any state in which it is still pending it finalizes the trial and appends
the trial data built from the current response record; in particular from the
initial state (no response given) the produced record has null `rt`, null
`response`, and `stimulus` equal to the stimulus parameter. -/
theorem trial_duration_fires_finalize (p : TrialParams) (d : Int)
    (h : p.trial_duration = some d) :
    (buildState p).trialTimerArmed = true ∧
    (∀ s : TrialState, s.trialTimerArmed = true →
      (step p s Event.trialTimerFire).finished = true ∧
      (step p s Event.trialTimerFire).results
        = s.results ++
          [{ rt := s.response.rt, stimulus := p.stimulus, response := s.response.key }]) ∧
    (step p (buildState p) Event.trialTimerFire).results
      = [{ rt := none, stimulus := p.stimulus, response := none }] := by
  refine ⟨by simp [buildState, h], fun s hs => ⟨?_, ?_⟩, ?_⟩
  · simp [step, hs, end_trial, finishTrial]
  · simp [step, hs, end_trial, finishTrial]
  · simp [step, buildState, h, end_trial, finishTrial]

/-- Witness for C7 at `trial_duration = 500` with no response events. -/
theorem trial_duration_fires_finalize_witness :
    (buildState { pDefault with trial_duration := some 500 }).trialTimerArmed = true ∧
    (∀ s : TrialState, s.trialTimerArmed = true →
      (step { pDefault with trial_duration := some 500 } s Event.trialTimerFire).finished = true ∧
      (step { pDefault with trial_duration := some 500 } s Event.trialTimerFire).results
        = s.results ++
          [{ rt := s.response.rt, stimulus := "<p>stim</p>", response := s.response.key }]) ∧
    (step { pDefault with trial_duration := some 500 }
        (buildState { pDefault with trial_duration := some 500 }) Event.trialTimerFire).results
      = [{ rt := none, stimulus := "<p>stim</p>", response := none }] :=
  trial_duration_fires_finalize { pDefault with trial_duration := some 500 } 500 rfl

/-- C9: a second invocation of the response handler keeps the first recorded
key (line 222's guard) but unconditionally overwrites `response.rt` with
`Math.round(end_time - start_time)` of the later invocation (line 228 sits
outside the guard). -/
theorem after_response_recomputes_rt (p : TrialParams) (s : TrialState)
    (info : ResponseRecord) (t : ℚ) (k : String) (h : s.response.key = some k) :
    (after_response p s info t).response.key = some k ∧
    (after_response p s info t).response.rt = some (round t) := by
  unfold after_response
  by_cases hre : p.response_ends_trial <;>
    simp [hre, end_trial, finishTrial, h]

/-- Witness for C9: a state that already recorded key "f" at rt 120; a later
handler invocation at t = 312 keeps the key and rewrites rt to 312. -/
theorem after_response_recomputes_rt_witness :
    (after_response pDefault sAnswered { rt := none, key := some "j" } 312).response.key
      = some "f" ∧
    (after_response pDefault sAnswered { rt := none, key := some "j" } 312).response.rt
      = some (round (312 : ℚ)) :=
  after_response_recomputes_rt pDefault sAnswered { rt := none, key := some "j" } 312 "f" rfl

/-- C8: visual simulation creates the synthesized data, runs the real `trial`
pipeline on the host's display element, invokes the load callback, and injects
exactly one key press — the synthesized response at the synthesized `rt` —
when `rt` is non-null, and no key press at all when `rt` is null. -/
theorem simulate_visual_runs_real_pipeline (d : SimData) :
    SimAction.createData d ∈ simulate "visual" d ∧
    SimAction.runTrial ∈ simulate "visual" d ∧
    SimAction.load_callback ∈ simulate "visual" d ∧
    (simulate "visual" d).filter isPressKey
      = (match d.rt with
         | some t => [SimAction.pressKey d.response t]
         | none => []) := by
  have hmode : simulate "visual" d = simulate_visual d := by
    simp [simulate]
  rw [hmode]
  cases hrt : d.rt <;>
    simp [simulate_visual, isPressKey, hrt, List.filter]

/-- The `end_trial` closure never touches the response record (it only reads
it). -/
theorem end_trial_response (p : TrialParams) (s : TrialState) :
    (end_trial p s).response = s.response := rfl

/-- The response record written by one `after_response` invocation: the key is
kept if already set, taken from the payload otherwise, and the rt is always
the rounded elapsed time of this invocation. -/
theorem after_response_response (p : TrialParams) (s : TrialState)
    (info : ResponseRecord) (t : ℚ) :
    (after_response p s info t).response
      = { rt := some (round t)
          key := if s.response.key = none then info.key else s.response.key } := by
  unfold after_response
  by_cases hre : p.response_ends_trial <;>
    by_cases hk : s.response.key = none <;>
      simp [hre, hk, end_trial, finishTrial]

/-- The key component of one event delivery: unchanged if already set,
otherwise the identifier of the accepted response (if the event is
accepted). -/
theorem step_response_key (p : TrialParams) (s : TrialState) (e : Event) :
    (step p s e).response.key
      = (match s.response.key with
         | some k => some k
         | none => accepted p s e) := by
  cases e with
  | keyPress k t =>
      by_cases hc : (s.keyboardArmed && keyQualifies p.choices k) = true
      · rw [show (step p s (Event.keyPress k t))
            = after_response p { s with keyboardArmed := false }
                { rt := some (round t), key := some k } t by simp [step, hc]]
        rw [after_response_response]
        cases hk : s.response.key <;> simp [accepted, hc, hk]
      · simp only [step, accepted, hc, if_neg, Bool.not_eq_true] at *
        cases hk : s.response.key <;> simp [hc, hk]
  | buttonClick i t =>
      cases hg : s.buttonGroup with
      | none => cases hk : s.response.key <;> simp [step, accepted, hg, hk]
      | some bs =>
          cases hi : bs[i]? with
          | none => cases hk : s.response.key <;> simp [step, accepted, hg, hi, hk]
          | some b =>
              by_cases hd : b.disabled = true
              · cases hk : s.response.key <;> simp [step, accepted, hg, hi, hd, hk]
              · rw [show (step p s (Event.buttonClick i t))
                    = after_response p s { rt := none, key := some b.choice } t by
                      simp [step, hg, hi, hd]]
                rw [after_response_response]
                cases hk : s.response.key <;> simp [accepted, hg, hi, hd, hk]
  | trialTimerFire =>
      by_cases ht : s.trialTimerArmed = true <;>
        cases hk : s.response.key <;>
          simp [step, accepted, ht, hk, end_trial, finishTrial]
  | stimTimerFire =>
      by_cases ht : s.stimTimerArmed = true <;>
        cases hk : s.response.key <;> simp [step, accepted, ht, hk]
  | enableTimerFire =>
      by_cases ht : s.enableTimerArmed = true <;>
        cases hk : s.response.key <;> simp [step, accepted, ht, hk]

/-- Trace-level first-response-wins: the final recorded key is the already
recorded one if there is one, else the identifier of the first accepted event
of the trace. -/
theorem steps_response_key (p : TrialParams) (s : TrialState) (evs : List Event) :
    (steps p s evs).response.key
      = (match s.response.key with
         | some k => some k
         | none => firstAccepted p s evs) := by
  induction evs generalizing s with
  | nil => cases hk : s.response.key <;> simp [steps, firstAccepted, hk]
  | cons e es ih =>
      cases hk : s.response.key with
      | some k =>
          have hstep : (step p s e).response.key = some k := by
            rw [step_response_key, hk]
          rw [steps, ih, hstep]
      | none =>
          cases ha : accepted p s e with
          | some k =>
              have hstep : (step p s e).response.key = some k := by
                rw [step_response_key, hk]; exact ha
              rw [steps, ih, hstep]
              simp [firstAccepted, ha, hk]
          | none =>
              have hstep : (step p s e).response.key = none := by
                rw [step_response_key, hk]; exact ha
              rw [steps, ih, hstep]
              simp [firstAccepted, ha, hk]

/-- C3: the response key is written at most once — an already-set key survives
every further event delivery unchanged — and the key recorded by a full trial
run equals the identifier of the first accepted response of the trace. -/
theorem response_key_first_wins (p : TrialParams) (s : TrialState) (e : Event)
    (k : String) (hk : s.response.key = some k) (evs : List Event) :
    (step p s e).response.key = some k ∧
    (steps p (buildState p) evs).response.key = firstAccepted p (buildState p) evs := by
  constructor
  · rw [step_response_key, hk]
  · rw [steps_response_key]
    have hinit : (buildState p).response.key = none := by
      simp [buildState]
    rw [hinit]

/-- Witness for C3: the state `sAnswered` (key "f" already recorded) keeps key
"f" across a later qualifying key press, and a fresh default trial records the
first accepted key of the trace. -/
theorem response_key_first_wins_witness :
    (step pDefault sAnswered (Event.keyPress "j" 312)).response.key = some "f" ∧
    (steps pDefault (buildState pDefault) [Event.keyPress "a" 100]).response.key
      = firstAccepted pDefault (buildState pDefault) [Event.keyPress "a" 100] :=
  response_key_first_wins pDefault sAnswered (Event.keyPress "j" 312) "f" rfl
    [Event.keyPress "a" 100]

/-- One event delivery preserves the no-keyboard/no-buttons/no-response state:
with the listener unarmed and no button group, neither a key press nor a click
can reach `after_response`, and the timer paths never write the response. -/
theorem noKeys_inv_step (p : TrialParams) (s : TrialState) (e : Event)
    (h1 : s.keyboardArmed = false) (h2 : s.buttonGroup = none)
    (h3 : s.response.key = none) :
    (step p s e).keyboardArmed = false ∧ (step p s e).buttonGroup = none ∧
      (step p s e).response.key = none := by
  cases e with
  | keyPress k t => simp [step, h1, h2, h3]
  | buttonClick i t => simp [step, h1, h2, h3]
  | trialTimerFire =>
      by_cases ht : s.trialTimerArmed = true <;>
        simp [step, ht, end_trial, finishTrial, h1, h2, h3]
  | stimTimerFire =>
      by_cases ht : s.stimTimerArmed = true <;> simp [step, ht, h1, h2, h3]
  | enableTimerFire =>
      by_cases ht : s.enableTimerArmed = true <;> simp [step, ht, h1, h2, h3]

/-- With the listener unarmed and no buttons, only the trial-duration timer
can finish the trial in one step. -/
theorem noKeys_unfinished_step (p : TrialParams) (s : TrialState) (e : Event)
    (h1 : s.keyboardArmed = false) (h2 : s.buttonGroup = none)
    (he : e ≠ Event.trialTimerFire) (hf : s.finished = false) :
    (step p s e).finished = false := by
  cases e with
  | keyPress k t => simp [step, h1, hf]
  | buttonClick i t => simp [step, h2, hf]
  | trialTimerFire => exact absurd rfl he
  | stimTimerFire =>
      by_cases ht : s.stimTimerArmed = true <;> simp [step, ht, hf]
  | enableTimerFire =>
      by_cases ht : s.enableTimerArmed = true <;> simp [step, ht, hf]

/-- Trace-level form of `noKeys_inv_step`. -/
theorem noKeys_inv_steps (p : TrialParams) (s : TrialState) (evs : List Event)
    (h1 : s.keyboardArmed = false) (h2 : s.buttonGroup = none)
    (h3 : s.response.key = none) :
    (steps p s evs).keyboardArmed = false ∧ (steps p s evs).buttonGroup = none ∧
      (steps p s evs).response.key = none := by
  induction evs generalizing s with
  | nil => exact ⟨h1, h2, h3⟩
  | cons e es ih =>
      obtain ⟨g1, g2, g3⟩ := noKeys_inv_step p s e h1 h2 h3
      exact ih (step p s e) g1 g2 g3

/-- Trace-level: if such a trial finished, the trial-duration timer must have
fired somewhere in the trace. -/
theorem noKeys_finished_mem (p : TrialParams) (s : TrialState) (evs : List Event)
    (h1 : s.keyboardArmed = false) (h2 : s.buttonGroup = none)
    (h3 : s.response.key = none) (hf : s.finished = false)
    (hdone : (steps p s evs).finished = true) :
    Event.trialTimerFire ∈ evs := by
  induction evs generalizing s with
  | nil => rw [steps] at hdone; rw [hf] at hdone; exact absurd hdone (by simp)
  | cons e es ih =>
      by_cases he : e = Event.trialTimerFire
      · exact he ▸ List.mem_cons_self _ _
      · obtain ⟨g1, g2, g3⟩ := noKeys_inv_step p s e h1 h2 h3
        have gf : (step p s e).finished = false :=
          noKeys_unfinished_step p s e h1 h2 he hf
        rw [steps] at hdone
        exact List.mem_cons_of_mem _ (ih (step p s e) g1 g2 g3 gf hdone)

/-- C4: with `choices = "NO_KEYS"` no keyboard listener is armed (line 244)
and no buttons are rendered (line 135 excludes `"NO_KEYS"`), so no
keyboard-triggered (or any) response is ever recorded, and the only event that
can finish the trial is the trial-duration timer firing. -/
theorem noKeys_no_keyboard_response (p : TrialParams)
    (hp : p.choices = Choices.noKeys) (evs : List Event) :
    (buildState p).keyboardArmed = false ∧
    (buildState p).buttonGroup = none ∧
    (steps p (buildState p) evs).response.key = none ∧
    ((steps p (buildState p) evs).finished = true → Event.trialTimerFire ∈ evs) := by
  have hb1 : (buildState p).keyboardArmed = false := by simp [buildState, hp]
  have hb2 : (buildState p).buttonGroup = none := by
    simp [buildState, renderButtons, hp]
  have hb3 : (buildState p).response.key = none := by simp [buildState]
  have hbf : (buildState p).finished = false := by simp [buildState]
  refine ⟨hb1, hb2, (noKeys_inv_steps p _ evs hb1 hb2 hb3).2.2, fun hdone => ?_⟩
  exact noKeys_finished_mem p _ evs hb1 hb2 hb3 hbf hdone

/-- Witness for C4: a `"NO_KEYS"` trial with a trial-duration timer; a key
press is ignored and the finish comes from the timer. -/
theorem noKeys_no_keyboard_response_witness :
    (buildState { pDefault with choices := Choices.noKeys }).keyboardArmed = false ∧
    (buildState { pDefault with choices := Choices.noKeys }).buttonGroup = none ∧
    (steps { pDefault with choices := Choices.noKeys }
        (buildState { pDefault with choices := Choices.noKeys })
        [Event.keyPress "a" 100, Event.trialTimerFire]).response.key = none ∧
    ((steps { pDefault with choices := Choices.noKeys }
        (buildState { pDefault with choices := Choices.noKeys })
        [Event.keyPress "a" 100, Event.trialTimerFire]).finished = true →
      Event.trialTimerFire ∈ [Event.keyPress "a" 100, Event.trialTimerFire]) :=
  noKeys_no_keyboard_response { pDefault with choices := Choices.noKeys } rfl
    [Event.keyPress "a" 100, Event.trialTimerFire]

/-- A missing button group can never reappear: no handler creates buttons
after rendering. -/
theorem buttonGroup_none_step (p : TrialParams) (s : TrialState) (e : Event)
    (h : s.buttonGroup = none) : (step p s e).buttonGroup = none := by
  cases e with
  | keyPress k t =>
      by_cases hc : (s.keyboardArmed && keyQualifies p.choices k) = true
      · by_cases hre : p.response_ends_trial = true <;>
          simp [step, hc, after_response, end_trial, finishTrial, h, hre]
      · simp [step, hc, h]
  | buttonClick i t => simp [step, h]
  | trialTimerFire =>
      by_cases ht : s.trialTimerArmed = true <;>
        simp [step, ht, end_trial, finishTrial, h]
  | stimTimerFire => by_cases ht : s.stimTimerArmed = true <;> simp [step, ht, h]
  | enableTimerFire => by_cases ht : s.enableTimerArmed = true <;> simp [step, ht, h]

/-- Trace-level form of `buttonGroup_none_step`. -/
theorem buttonGroup_none_steps (p : TrialParams) (s : TrialState) (evs : List Event)
    (h : s.buttonGroup = none) : (steps p s evs).buttonGroup = none := by
  induction evs generalizing s with
  | nil => exact h
  | cons e es ih => exact ih _ (buttonGroup_none_step p s e h)

/-- With `show_button = false` the rendering block never runs and there is no
button group. -/
theorem buildState_group_none (p : TrialParams) (hsb : p.show_button = false) :
    (buildState p).buttonGroup = none := by
  simp [buildState, renderButtons, hsb]

/-- With `response_ends_trial = false`, no event but the trial-duration timer
can finish the trial in one step. -/
theorem no_end_without_timer_step (p : TrialParams)
    (hre : p.response_ends_trial = false) (s : TrialState) (e : Event)
    (he : e ≠ Event.trialTimerFire) (hf : s.finished = false) :
    (step p s e).finished = false := by
  cases e with
  | keyPress k t =>
      by_cases hc : (s.keyboardArmed && keyQualifies p.choices k) = true <;>
        simp [step, hc, after_response, hre, hf]
  | buttonClick i t =>
      cases hg : s.buttonGroup with
      | none => simp [step, hg, hf]
      | some bs =>
          cases hi : bs[i]? with
          | none => simp [step, hg, hi, hf]
          | some b =>
              by_cases hd : b.disabled = true <;>
                simp [step, hg, hi, hd, after_response, hre, hf]
  | trialTimerFire => exact absurd rfl he
  | stimTimerFire => by_cases ht : s.stimTimerArmed = true <;> simp [step, ht, hf]
  | enableTimerFire => by_cases ht : s.enableTimerArmed = true <;> simp [step, ht, hf]

/-- Trace-level form of `no_end_without_timer_step`. -/
theorem no_end_without_timer_steps (p : TrialParams)
    (hre : p.response_ends_trial = false) (s : TrialState) (evs : List Event)
    (hf : s.finished = false) (hmem : Event.trialTimerFire ∉ evs) :
    (steps p s evs).finished = false := by
  induction evs generalizing s with
  | nil => exact hf
  | cons e es ih =>
      have he : e ≠ Event.trialTimerFire := fun hcon =>
        hmem (hcon ▸ List.mem_cons_self _ _)
      exact ih _ (no_end_without_timer_step p hre s e he hf)
        (fun hcon => hmem (List.mem_cons_of_mem _ hcon))

/-- The observable effect of one non-ending `after_response` invocation: the
`responded` marker is set, the trial keeps its completion status and results,
and whatever button group remains (given that a button group can only exist
when `show_button` is set) is entirely disabled. -/
theorem after_response_marks (p : TrialParams)
    (hre : p.response_ends_trial = false) (s : TrialState) (info : ResponseRecord)
    (t : ℚ) (hg : s.buttonGroup = none ∨ p.show_button = true) :
    (after_response p s info t).respondedClass = true ∧
    (after_response p s info t).finished = s.finished ∧
    (after_response p s info t).results = s.results ∧
    (∀ bs, (after_response p s info t).buttonGroup = some bs →
      ∀ b ∈ bs, b.disabled = true) := by
  refine ⟨by simp [after_response, hre], by simp [after_response, hre],
    by simp [after_response, hre], ?_⟩
  intro bs hbs b hb
  rcases hg with h0 | hsb
  · simp [after_response, hre, h0] at hbs
  · rw [show (after_response p s info t).buttonGroup
        = s.buttonGroup.map (fun l => l.map fun x => { x with disabled := true }) by
          simp [after_response, hre, hsb]] at hbs
    cases hsg : s.buttonGroup with
    | none => rw [hsg] at hbs; simp at hbs
    | some bs0 =>
        rw [hsg] at hbs
        rw [Option.map_some'] at hbs
        injection hbs with hbs2
        subst hbs2
        obtain ⟨b0, _, hb0⟩ := List.mem_map.mp hb
        rw [← hb0]

/-- One accepted event with `response_ends_trial = false`: marks `responded`,
disables the buttons, and does not finalize. -/
theorem accepted_step_marks (p : TrialParams)
    (hre : p.response_ends_trial = false) (s : TrialState) (e : Event)
    (hg : s.buttonGroup = none ∨ p.show_button = true)
    (ha : accepted p s e ≠ none) :
    (step p s e).respondedClass = true ∧
    (step p s e).finished = s.finished ∧
    (step p s e).results = s.results ∧
    (∀ bs, (step p s e).buttonGroup = some bs → ∀ b ∈ bs, b.disabled = true) := by
  cases e with
  | keyPress k t =>
      by_cases hc : (s.keyboardArmed && keyQualifies p.choices k) = true
      · rw [show step p s (Event.keyPress k t)
            = after_response p { s with keyboardArmed := false }
                { rt := some (round t), key := some k } t by simp [step, hc]]
        exact after_response_marks p hre { s with keyboardArmed := false } _ t hg
      · exact absurd (by simp [accepted, hc]) ha
  | buttonClick i t =>
      cases hbg : s.buttonGroup with
      | none => exact absurd (by simp [accepted, hbg]) ha
      | some bs =>
          cases hi : bs[i]? with
          | none => exact absurd (by simp [accepted, hbg, hi]) ha
          | some b =>
              by_cases hd : b.disabled = true
              · exact absurd (by simp [accepted, hbg, hi, hd]) ha
              · rw [show step p s (Event.buttonClick i t)
                    = after_response p s { rt := none, key := some b.choice } t by
                      simp [step, hbg, hi, hd]]
                exact after_response_marks p hre s _ t hg
  | trialTimerFire => exact absurd (by simp [accepted]) ha
  | stimTimerFire => exact absurd (by simp [accepted]) ha
  | enableTimerFire => exact absurd (by simp [accepted]) ha

/-- C5: with `response_ends_trial = false`, a qualifying response (an accepted
event in any reachable trial state) adds the `responded` marker and disables
every rendered button but does not invoke finalize — completion status and
results are untouched — and the trial stays open for as long as the
trial-duration timer has not fired. -/
theorem response_not_ending_trial (p : TrialParams)
    (hre : p.response_ends_trial = false) (evs : List Event) (e : Event)
    (ha : accepted p (steps p (buildState p) evs) e ≠ none) :
    (step p (steps p (buildState p) evs) e).respondedClass = true ∧
    (step p (steps p (buildState p) evs) e).finished
      = (steps p (buildState p) evs).finished ∧
    (step p (steps p (buildState p) evs) e).results
      = (steps p (buildState p) evs).results ∧
    (∀ bs, (step p (steps p (buildState p) evs) e).buttonGroup = some bs →
      ∀ b ∈ bs, b.disabled = true) ∧
    (Event.trialTimerFire ∉ evs → (steps p (buildState p) evs).finished = false) := by
  have hg : (steps p (buildState p) evs).buttonGroup = none ∨ p.show_button = true := by
    by_cases hsb : p.show_button = true
    · exact Or.inr hsb
    · exact Or.inl (buttonGroup_none_steps p _ evs
        (buildState_group_none p (Bool.not_eq_true _ ▸ hsb)))
  obtain ⟨g1, g2, g3, g4⟩ := accepted_step_marks p hre _ e hg ha
  exact ⟨g1, g2, g3, g4, fun hmem =>
    no_end_without_timer_steps p hre _ evs (by simp [buildState]) hmem⟩

/-- Witness for C5: two buttons, `response_ends_trial = false`, a click on
button 0 at t = 37 from the freshly rendered state. -/
theorem response_not_ending_trial_witness :
    (step { pDefault with choices := Choices.keyList ["f", "j"], response_ends_trial := false }
        (steps { pDefault with choices := Choices.keyList ["f", "j"], response_ends_trial := false }
          (buildState { pDefault with choices := Choices.keyList ["f", "j"], response_ends_trial := false }) [])
        (Event.buttonClick 0 37)).respondedClass = true ∧
    (step { pDefault with choices := Choices.keyList ["f", "j"], response_ends_trial := false }
        (steps { pDefault with choices := Choices.keyList ["f", "j"], response_ends_trial := false }
          (buildState { pDefault with choices := Choices.keyList ["f", "j"], response_ends_trial := false }) [])
        (Event.buttonClick 0 37)).finished
      = (steps { pDefault with choices := Choices.keyList ["f", "j"], response_ends_trial := false }
          (buildState { pDefault with choices := Choices.keyList ["f", "j"], response_ends_trial := false }) []).finished ∧
    (step { pDefault with choices := Choices.keyList ["f", "j"], response_ends_trial := false }
        (steps { pDefault with choices := Choices.keyList ["f", "j"], response_ends_trial := false }
          (buildState { pDefault with choices := Choices.keyList ["f", "j"], response_ends_trial := false }) [])
        (Event.buttonClick 0 37)).results
      = (steps { pDefault with choices := Choices.keyList ["f", "j"], response_ends_trial := false }
          (buildState { pDefault with choices := Choices.keyList ["f", "j"], response_ends_trial := false }) []).results ∧
    (∀ bs, (step { pDefault with choices := Choices.keyList ["f", "j"], response_ends_trial := false }
        (steps { pDefault with choices := Choices.keyList ["f", "j"], response_ends_trial := false }
          (buildState { pDefault with choices := Choices.keyList ["f", "j"], response_ends_trial := false }) [])
        (Event.buttonClick 0 37)).buttonGroup = some bs → ∀ b ∈ bs, b.disabled = true) ∧
    (Event.trialTimerFire ∉ ([] : List Event) →
      (steps { pDefault with choices := Choices.keyList ["f", "j"], response_ends_trial := false }
        (buildState { pDefault with choices := Choices.keyList ["f", "j"], response_ends_trial := false }) []).finished = false) :=
  response_not_ending_trial
    { pDefault with choices := Choices.keyList ["f", "j"], response_ends_trial := false }
    rfl [] (Event.buttonClick 0 37) (by decide)

/-- One event delivery preserves the exactly-once invariant `OnceInv`: an
unfinished trial can at most reach `finishTrial` once (producing its single
record and disarming every input source), and in a finished trial every
delivery is a no-op because the keyboard listener was cancelled, the display
was torn down and the timers were cleared. -/
theorem once_inv_step (p : TrialParams) (s : TrialState) (e : Event)
    (h : OnceInv s) : OnceInv (step p s e) := by
  unfold OnceInv at h ⊢
  rcases h with ⟨hf, hr⟩ | ⟨hf, hr, hkb, hbg, htt, hst, het⟩
  · cases e with
    | keyPress k t =>
        by_cases hc : (s.keyboardArmed && keyQualifies p.choices k) = true
        · by_cases hre : p.response_ends_trial = true
          · right
            simp [step, hc, after_response, hre, end_trial, finishTrial, hf, hr]
          · left
            simp [step, hc, after_response, hre, hf, hr]
        · left; simp [step, hc, hf, hr]
    | buttonClick i t =>
        cases hg : s.buttonGroup with
        | none => left; simp [step, hg, hf, hr]
        | some bs =>
            cases hi : bs[i]? with
            | none => left; simp [step, hg, hi, hf, hr]
            | some b =>
                by_cases hd : b.disabled = true
                · left; simp [step, hg, hi, hd, hf, hr]
                · by_cases hre : p.response_ends_trial = true
                  · right
                    simp [step, hg, hi, hd, after_response, hre, end_trial,
                      finishTrial, hf, hr]
                  · left
                    simp [step, hg, hi, hd, after_response, hre, hf, hr]
    | trialTimerFire =>
        by_cases ht : s.trialTimerArmed = true
        · right; simp [step, ht, end_trial, finishTrial, hf, hr]
        · left; simp [step, ht, hf, hr]
    | stimTimerFire =>
        by_cases ht : s.stimTimerArmed = true <;> left <;> simp [step, ht, hf, hr]
    | enableTimerFire =>
        by_cases ht : s.enableTimerArmed = true <;> left <;> simp [step, ht, hf, hr]
  · cases e with
    | keyPress k t => right; simp [step, hkb, hf, hr, hbg, htt, hst, het]
    | buttonClick i t => right; simp [step, hbg, hf, hr, hkb, htt, hst, het]
    | trialTimerFire => right; simp [step, htt, hf, hr, hkb, hbg, hst, het]
    | stimTimerFire => right; simp [step, hst, hf, hr, hkb, hbg, htt, het]
    | enableTimerFire => right; simp [step, het, hf, hr, hkb, hbg, htt, hst]

/-- Trace-level form of `once_inv_step`. -/
theorem once_inv_steps (p : TrialParams) (s : TrialState) (evs : List Event)
    (h : OnceInv s) : OnceInv (steps p s evs) := by
  induction evs generalizing s with
  | nil => exact h
  | cons e es ih => exact ih _ (once_inv_step p s e h)

/-- C1: for every trial invocation that renders successfully, any interleaving
of keyboard, click and timer deliveries hands at most one trial-data record to
the host's completion sink — whichever of the response path and the
trial-duration timer reaches `end_trial` first wins — and once the trial is
finished the count is exactly one and stays one: a later would-be finalize is
a silent no-op (every input source is disarmed). -/
theorem exactly_one_trial_result (p : TrialParams) (s0 : TrialState)
    (h : trial p = Except.ok s0) (evs : List Event) :
    (steps p s0 evs).results.length ≤ 1 ∧
    ((steps p s0 evs).finished = true → (steps p s0 evs).results.length = 1) := by
  have hs0 : s0 = buildState p := by
    unfold trial at h
    split at h
    · cases h
    · exact ((Except.ok.injEq _ _).mp h).symm
  subst hs0
  have hinit : OnceInv (buildState p) := by
    unfold OnceInv
    exact Or.inl ⟨by simp [buildState], by simp [buildState]⟩
  have hinv := once_inv_steps p (buildState p) evs hinit
  unfold OnceInv at hinv
  rcases hinv with ⟨hf, hr⟩ | ⟨hf, hr, _⟩
  · rw [hr]
    exact ⟨by simp, fun hdone => absurd hdone (by simp [hf])⟩
  · exact ⟨le_of_eq hr, fun _ => hr⟩

/-- Witness for C1: the default trial, a key press at t = 300 followed by a
(cleared) trial-timer delivery. -/
theorem exactly_one_trial_result_witness :
    (steps pDefault (buildState pDefault)
      [Event.keyPress "a" 300, Event.trialTimerFire]).results.length ≤ 1 ∧
    ((steps pDefault (buildState pDefault)
        [Event.keyPress "a" 300, Event.trialTimerFire]).finished = true →
      (steps pDefault (buildState pDefault)
        [Event.keyPress "a" 300, Event.trialTimerFire]).results.length = 1) :=
  exactly_one_trial_result pDefault (buildState pDefault) rfl
    [Event.keyPress "a" 300, Event.trialTimerFire]

end KeyNButton
